import Mathlib

/-!
Verification development for the Nova AI writing coach (src/app.py).

The file shallowly embeds the deterministic logic of the application:
the regex-based citation analyzer `detect_citations`, the two
Completion-Service dispatchers `generate_socratic_questions` and
`analyze_citations_with_ai` (the OpenAI client is modelled as an explicit
function argument returning `Except`, an exception being the `error`
case), the top-level analysis flow behind the button handler, and the
question-display parsing with its fallback. Python floats are modelled as
exact rationals; `json.loads` is modelled as an oracle producing
`Option Json` (`none` standing for a parse exception).
-/

set_option maxRecDepth 20000

namespace AIWritingCoach

/-- Character class of the regex range A-Za-z used in both citation
patterns of src/app.py lines 81-82 (codepoints 65-90 and 97-122). -/
def isAlphaChar (c : Char) : Bool :=
  (65 ≤ c.toNat && c.toNat ≤ 90) || (97 ≤ c.toNat && c.toNat ≤ 122)

/-- Character class for a decimal digit 0-9 as used in the citation
patterns (ASCII codepoints 48-57). -/
def isDigitChar (c : Char) : Bool :=
  48 ≤ c.toNat && c.toNat ≤ 57

/-- Whitespace in Python: the regex whitespace class and the default
separator set of str.split and str.strip. Space, TAB, LF, VT, FF, CR, the
ASCII separators 28-31, NEL (133), NBSP (160), and the Unicode space
separators. -/
def pySpace (c : Char) : Bool :=
  c.toNat = 32 || c.toNat = 9 || c.toNat = 10 || c.toNat = 11 ||
  c.toNat = 12 || c.toNat = 13 || (28 ≤ c.toNat && c.toNat ≤ 31) ||
  c.toNat = 133 || c.toNat = 160 || c.toNat = 5760 ||
  (8192 ≤ c.toNat && c.toNat ≤ 8202) || c.toNat = 8232 ||
  c.toNat = 8233 || c.toNat = 8239 || c.toNat = 8287 || c.toNat = 12288

/-- Substring test: Python's `needle in s`. True when `needle` occurs as a
contiguous run inside `haystack`. -/
def containsSub (needle haystack : List Char) : Bool :=
  (List.range (haystack.length + 1)).any (fun i => needle.isPrefixOf (haystack.drop i))

/-- Helper for `countWords`: the Boolean records whether the previous
character belonged to a word. -/
def countWordsAux : Bool → List Char → Nat
  | _, [] => 0
  | inWord, c :: rest =>
    if pySpace c then countWordsAux false rest
    else (if inWord then 0 else 1) + countWordsAux true rest

/-- Number of whitespace-separated words: len(text.split()) in Python,
i.e. the number of maximal runs of non-whitespace characters. -/
def countWords (l : List Char) : Nat := countWordsAux false l

/-- Matcher for the APA pattern continuation after the opening parenthesis
and the first author-name letter run: a comma, optional whitespace, then
either a further letter run (looping) or exactly four digits and the
closing parenthesis. Embeds the regex fragment
(?:,\s*[A-Za-z]+)*,\s*\d\d\d\d\) where no backtracking can change the
outcome: letter, digit and whitespace classes are pairwise disjoint, so
greedy scanning is deterministic. Fuel bounds the recursion; each
recursive step consumes at least the comma, so fuel = input length + 1
always suffices. On success returns (matched characters, rest). -/
def matchAPAloop : Nat → List Char → Option (List Char × List Char)
  | 0, _ => none
  | _ + 1, [] => none
  | fuel + 1, c :: rest =>
    if c = ',' then
      let ws := rest.takeWhile pySpace
      let rest1 := rest.dropWhile pySpace
      match rest1 with
      | [] => none
      | c1 :: _ =>
        if isAlphaChar c1 then
          let letters := rest1.takeWhile isAlphaChar
          let rest2 := rest1.dropWhile isAlphaChar
          match matchAPAloop fuel rest2 with
          | some (tok, r) => some (',' :: (ws ++ letters ++ tok), r)
          | none => none
        else
          match rest1 with
          | d1 :: d2 :: d3 :: d4 :: ')' :: r =>
            if isDigitChar d1 && isDigitChar d2 && isDigitChar d3 && isDigitChar d4 then
              some (',' :: (ws ++ [d1, d2, d3, d4, ')']), r)
            else none
          | _ => none
    else none

/-- Matcher, anchored at the current position, for the APA citation
pattern of src/app.py line 81: an opening parenthesis, one or more
letters, then comma-separated further name runs ending in a comma,
optional whitespace, a four-digit year and a closing parenthesis. -/
def matchAPA (l : List Char) : Option (List Char × List Char) :=
  match l with
  | [] => none
  | c :: rest =>
    if c = '(' then
      let letters := rest.takeWhile isAlphaChar
      let rest1 := rest.dropWhile isAlphaChar
      if letters.isEmpty then none
      else
        match matchAPAloop (rest1.length + 1) rest1 with
        | some (tok, r) => some ('(' :: (letters ++ tok), r)
        | none => none
    else none

/-- Matcher, anchored at the current position, for the MLA citation
pattern of src/app.py line 82: an opening parenthesis, one or more
letters, one or more whitespace characters, one or more digits, and a
closing parenthesis. Greedy scanning is deterministic here for the same
class-disjointness reason as in the APA matcher. -/
def matchMLA (l : List Char) : Option (List Char × List Char) :=
  match l with
  | [] => none
  | c :: rest =>
    if c = '(' then
      let letters := rest.takeWhile isAlphaChar
      let rest1 := rest.dropWhile isAlphaChar
      if letters.isEmpty then none
      else
        let ws := rest1.takeWhile pySpace
        let rest2 := rest1.dropWhile pySpace
        if ws.isEmpty then none
        else
          let digits := rest2.takeWhile isDigitChar
          let rest3 := rest2.dropWhile isDigitChar
          if digits.isEmpty then none
          else
            match rest3 with
            | ')' :: r => some ('(' :: (letters ++ ws ++ digits ++ [')']), r)
            | _ => none
    else none

/-- Matcher for the tail of the URL pattern of src/app.py line 83 after
the leading http or https: a colon, two slashes, then one or more
non-whitespace characters (greedy). -/
def matchURLtail (l : List Char) : Option (List Char × List Char) :=
  match l with
  | ':' :: '/' :: '/' :: rest =>
    let body := rest.takeWhile (fun c => !pySpace c)
    if body.isEmpty then none
    else some (':' :: '/' :: '/' :: body, rest.dropWhile (fun c => !pySpace c))
  | _ => none

/-- Matcher, anchored at the current position, for the URL pattern of
src/app.py line 83. The optional s is tried greedily; when the tail fails
after an s, the regex engine's fallback attempt without consuming the s
would have to read a colon where the s stands, so it always fails too and
returning none is faithful. -/
def matchURL (l : List Char) : Option (List Char × List Char) :=
  match l with
  | 'h' :: 't' :: 't' :: 'p' :: 's' :: rest =>
    match matchURLtail rest with
    | some (tok, r) => some ('h' :: 't' :: 't' :: 'p' :: 's' :: tok, r)
    | none => none
  | 'h' :: 't' :: 't' :: 'p' :: rest =>
    match matchURLtail rest with
    | some (tok, r) => some ('h' :: 't' :: 't' :: 'p' :: tok, r)
    | none => none
  | _ => none

/-- Scanner implementing re.findall semantics: at each position attempt
the anchored matcher; on success record the token and resume after it, on
failure advance one character. Every matcher used here consumes at least
one character on success, so fuel = input length suffices. -/
def scanAll (m : List Char → Option (List Char × List Char)) : Nat → List Char → List (List Char)
  | 0, _ => []
  | _ + 1, [] => []
  | fuel + 1, c :: rest =>
    match m (c :: rest) with
    | some (tok, r) => tok :: scanAll m fuel r
    | none => scanAll m fuel rest

/-- All non-overlapping, leftmost matches of an anchored matcher in a
text: re.findall. -/
def findall (m : List Char → Option (List Char × List Char)) (l : List Char) : List (List Char) :=
  scanAll m l.length l

/-- Report produced by detect_citations, src/app.py lines 93-100. The
Python float citation_density is modelled as an exact rational. -/
structure CitationReport where
  apa_count : Nat
  mla_count : Nat
  url_count : Nat
  has_recent_sources : Bool
  citation_density : ℚ
  total_citations : Nat
deriving DecidableEq

/-- Embeds detect_citations, src/app.py lines 78-100: scan the text for
APA citations, MLA citations and URLs, flag a recent source when an APA
match contains the substring 202, and compute the citation density over
the word count with minimum denominator 1. -/
def detect_citations (text : String) : CitationReport :=
  let t := text.data
  let apa_citations := findall matchAPA t
  let mla_citations := findall matchMLA t
  let urls := findall matchURL t
  let has_recent_sources := apa_citations.any (fun citation => containsSub ("202".data) citation)
  let citation_density : ℚ :=
    ((apa_citations.length + mla_citations.length : ℕ) : ℚ) / ((max (countWords t) 1 : ℕ) : ℚ) * 1000
  { apa_count := apa_citations.length
    mla_count := mla_citations.length
    url_count := urls.length
    has_recent_sources := has_recent_sources
    citation_density := citation_density
    total_citations := apa_citations.length + mla_citations.length }

/-- Role-tagged message of the Completion Service request,
src/app.py lines 130-133 and 176-179. -/
structure Message where
  role : String
  content : String
deriving DecidableEq

/-- Request sent to the Completion Service, src/app.py lines 128-136 and
174-182. The sampling temperature is modelled as an exact rational. -/
structure CompletionRequest where
  model : String
  messages : List Message
  temperature : ℚ
  max_tokens : Nat
deriving DecidableEq

/-- System prompt of generate_socratic_questions, src/app.py
lines 105-125, with the selected focus area interpolated. -/
def socraticSystemPrompt (focus_area : String) : String :=
  "You are Nova, an AI writing coach that uses Socratic questioning to guide students to insights about their own writing. \n\nYour role is to ask 3-4 thoughtful questions that help the student discover areas for improvement in their writing, specifically focusing on "
  ++ focus_area ++
  ".\n\nGuidelines:\n- Ask questions that lead students to self-discovery rather than giving direct answers\n- Use \"What if...\" \"How might...\" \"Why do you think...\" question starters\n- Make questions specific to their actual text\n- Focus on helping them think critically about their choices\n- Keep questions accessible but intellectually engaging\n- End with one question that pushes them to consider their audience/purpose\n\nReturn your response as a JSON object with this structure:\n\x7b\n    \"questions\": [\n        \x7b\"question\": \"Your question here\", \"purpose\": \"Brief explanation of what this question helps them discover\"\x7d,\n        // 2-3 more questions\n    ],\n    \"reflection_prompt\": \"A final broader question about their writing goals\"\n\x7d\n"

/-- Fallback string returned by generate_socratic_questions when the
Completion Service call raises, src/app.py lines 139-147: the
json.dumps serialization of the three hardcoded generic questions and
the generic reflection prompt. -/
def socraticFallbackJson : String :=
  "\x7b\"questions\": [\x7b\"question\": \"What is the main argument you\x27re trying to make in this piece?\", \"purpose\": \"Helps identify thesis clarity\"\x7d, \x7b\"question\": \"Who is your intended audience and how does that shape your word choices?\", \"purpose\": \"Develops audience awareness\"\x7d, \x7b\"question\": \"What evidence best supports your strongest point?\", \"purpose\": \"Encourages critical evaluation of support\"\x7d], \"reflection_prompt\": \"How well does this piece achieve what you set out to accomplish?\"\x7d"

/-- Request built by generate_socratic_questions, src/app.py
lines 128-136: gpt-4, a system message with the Socratic persona and a
user message with the student text, temperature 0.7, 600 output tokens. -/
def socraticRequest (text focus_area : String) : CompletionRequest :=
  ⟨"gpt-4",
   [⟨"system", socraticSystemPrompt focus_area⟩,
    ⟨"user", "Here is the student\x27s writing:\n\n" ++ text⟩],
   7 / 10, 600⟩

/-- Embeds generate_socratic_questions, src/app.py lines 102-147. The
Completion Service is an explicit argument svc; an exception inside the
try block is its error case, answered with the hardcoded fallback JSON.
The function is total: no error escapes it. -/
def generate_socratic_questions (svc : CompletionRequest → Except String String)
    (text focus_area : String) : String :=
  match svc (socraticRequest text focus_area) with
  | Except.ok content => content
  | Except.error _ => socraticFallbackJson

/-- System prompt of analyze_citations_with_ai, src/app.py
lines 152-162. -/
def citationSystemPrompt : String :=
  "You are Nova, an AI writing coach specializing in research and citation analysis. Analyze the student\x27s use of sources and citations.\n\nFocus on:\n- Integration of sources into arguments (not just citation format)\n- Variety and credibility of sources\n- How well sources support the argument\n- Opportunities for stronger evidence\n\nProvide specific, actionable feedback in a supportive tone. If you see citation attempts, acknowledge the effort while suggesting improvements.\n\nKeep response under 200 words and be encouraging but honest."

/-- Citation context block of analyze_citations_with_ai, src/app.py
lines 164-171: an f-string stating every count of the report,
unconditionally. Python str() of a bool prints True or False. -/
def citation_context (citation_data : CitationReport) : String :=
  "\n    Citation Analysis:\n    - Total citations found: " ++ toString citation_data.total_citations ++
  "\n    - APA style citations: " ++ toString citation_data.apa_count ++
  "\n    - MLA style citations: " ++ toString citation_data.mla_count ++
  "\n    - URLs found: " ++ toString citation_data.url_count ++
  "\n    - Recent sources detected: " ++ (if citation_data.has_recent_sources then "True" else "False") ++
  "\n    "

/-- User-role message content of analyze_citations_with_ai, src/app.py
line 178: the citation context followed by the student text. -/
def citationUserMessage (text : String) (citation_data : CitationReport) : String :=
  citation_context citation_data ++ "\n\nStudent\x27s text:\n" ++ text

/-- Request built by analyze_citations_with_ai, src/app.py
lines 174-182: gpt-4, the citation-analysis persona and the user message,
temperature 0.6, 300 output tokens. -/
def citationRequest (text : String) (citation_data : CitationReport) : CompletionRequest :=
  ⟨"gpt-4",
   [⟨"system", citationSystemPrompt⟩,
    ⟨"user", citationUserMessage text citation_data⟩],
   3 / 5, 300⟩

/-- Fallback string returned by analyze_citations_with_ai when the
Completion Service call raises, src/app.py line 186. -/
def citationFallback : String :=
  "I notice you\x27re working on incorporating sources into your writing. Consider how each source specifically supports your main argument and whether you\x27re explaining the connection clearly for your readers."

/-- Embeds analyze_citations_with_ai, src/app.py lines 149-186,
with the Completion Service as an explicit argument. Total: an error of
the service is answered with the fixed fallback sentence. -/
def analyze_citations_with_ai (svc : CompletionRequest → Except String String)
    (text : String) (citation_data : CitationReport) : String :=
  match svc (citationRequest text citation_data) with
  | Except.ok content => content
  | Except.error _ => citationFallback

/-- Embeds line 9 of src/app.py: the credential is read from the process
environment; absence simply yields None, no check is performed. -/
def apiKeyFromEnv (env : String → Option String) : Option String :=
  env "OPENAI_API_KEY"

/-- Python str.strip(): remove leading and trailing whitespace. -/
def pyStrip (s : String) : String :=
  ⟨((s.data.dropWhile pySpace).reverse.dropWhile pySpace).reverse⟩

/-- Outcome of one click of the analysis button: either the empty-input
warning, or the three stored results (src/app.py lines 232-250). -/
inductive AnalysisOutcome where
  | warning : String → AnalysisOutcome
  | results : String → String → CitationReport → AnalysisOutcome
deriving DecidableEq

/-- Embeds the analysis-button handler, src/app.py lines 232-250: reject
whitespace-only input, otherwise run the citation analyzer and both
dispatchers. The environment is a parameter solely to record that the
handler never consults it: no credential check precedes the Completion
Service calls. -/
def runAnalysis (env : String → Option String) (svc : CompletionRequest → Except String String)
    (user_input focus : String) : AnalysisOutcome :=
  if pyStrip user_input = "" then
    AnalysisOutcome.warning "⚠️ Please enter some text to analyze."
  else
    let citation_data := detect_citations user_input
    let questions_response := generate_socratic_questions svc user_input focus
    let citation_feedback := analyze_citations_with_ai svc user_input citation_data
    AnalysisOutcome.results questions_response citation_feedback citation_data

/-- Questions stored by a successful (non-warning) analysis outcome. -/
def outcomeQuestions : AnalysisOutcome → Option String
  | AnalysisOutcome.warning _ => none
  | AnalysisOutcome.results q _ _ => some q

/-- JSON values as produced by json.loads. Numbers are modelled as
integers (no payload in src/app.py carries a fractional number). Objects
are association lists with the keys distinct, as a parser produces them. -/
inductive Json where
  | null : Json
  | bool : Bool → Json
  | num : Int → Json
  | str : String → Json
  | arr : List Json → Json
  | obj : List (String × Json) → Json

/-- Python truthiness of a JSON value, as tested by the line
if reflection_prompt: of src/app.py line 292. -/
def truthy : Json → Bool
  | Json.null => false
  | Json.bool b => b
  | Json.num n => n != 0
  | Json.str s => s != ""
  | Json.arr l => !l.isEmpty
  | Json.obj l => !l.isEmpty

/-- The three hardcoded fallback questions of the display parser,
src/app.py lines 262-266. -/
def fallbackQuestionEntries : List Json :=
  [Json.obj [("question", Json.str "What is the strongest part of your argument and why?"),
             ("purpose", Json.str "Identifies areas of strength")],
   Json.obj [("question", Json.str "Where might readers need more explanation or evidence?"),
             ("purpose", Json.str "Highlights gaps in support")],
   Json.obj [("question", Json.str "How does this piece serve your reader\x27s needs?"),
             ("purpose", Json.str "Develops audience awareness")]]

/-- The hardcoded fallback reflection prompt of the display parser,
src/app.py line 267. -/
def fallbackReflectionPrompt : String :=
  "What would you change if you were writing this for a different audience?"

/-- Embeds the try/except parse of the stored questions payload,
src/app.py lines 256-267. The argument is the outcome of json.loads on
the stored string, none standing for a raised parse error. A payload that
parses to a non-object also lands in the fallback: the .get attribute
access raises on it inside the same try block. On an object, missing keys
default to an empty list and an empty string respectively. -/
def parseQuestionsData : Option Json → Json × Json
  | some (Json.obj kvs) =>
    ((kvs.lookup "questions").getD (Json.arr []),
     (kvs.lookup "reflection_prompt").getD (Json.str ""))
  | some _ => (Json.arr fallbackQuestionEntries, Json.str fallbackReflectionPrompt)
  | none => (Json.arr fallbackQuestionEntries, Json.str fallbackReflectionPrompt)

/-- One iteration of the question display loop, src/app.py lines 276-289:
the subscripts q[question] and q[purpose] succeed only on an object
carrying both keys; anything else raises (none), uncaught by the code. -/
def renderQuestionEntry : Json → Option (Json × Json)
  | Json.obj kvs =>
    match kvs.lookup "question", kvs.lookup "purpose" with
    | some qv, some pv => some (qv, pv)
    | _, _ => none
  | _ => none

/-- Option-valued map: the first failing element aborts the whole
traversal, as an uncaught exception aborts the display loop. -/
def mapOpt (f : α → Option β) : List α → Option (List β)
  | [] => some []
  | a :: as =>
    match f a, mapOpt f as with
    | some b, some bs => some (b :: bs)
    | _, _ => none

/-- Embeds the display of the parsed questions and reflection prompt,
src/app.py lines 276-301. Iterating a non-sequence raises (none); an
empty string or empty object iterates zero times; each question entry is
rendered through its two subscripts; the reflection block is rendered
exactly when the reflection value is truthy. Returns the rendered
question pairs and the optional reflection block. -/
def displayStep (questions reflection_prompt : Json) : Option (List (Json × Json) × Option Json) :=
  let reflectionBlock := if truthy reflection_prompt then some reflection_prompt else none
  match questions with
  | Json.arr qs =>
    match mapOpt renderQuestionEntry qs with
    | some entries => some (entries, reflectionBlock)
    | none => none
  | Json.str s => if s = "" then some ([], reflectionBlock) else none
  | Json.obj kvs => if kvs.isEmpty then some ([], reflectionBlock) else none
  | _ => none

/-- Full display pipeline of src/app.py lines 253-301: parse the stored
payload (with fallback), then render questions and reflection prompt. -/
def displayResults (parsed : Option Json) : Option (List (Json × Json) × Option Json) :=
  let p := parseQuestionsData parsed
  displayStep p.1 p.2

/-- Prompt template of the registry: a persona establishing the tutor
identity and an instruction body with named criteria plus the directive
to end with actionable suggestions and guiding questions. -/
structure PromptTemplate where
  persona : String
  instruction : String
deriving DecidableEq

/-- Modelled from the spec: the Prompt Template Registry (spec section
4.2) is not part of src/app.py, which only declares the writing-type
labels (lines 220-229); the registry entries live in another variant of
the app not present under src. One template per writing-type label of
src/app.py, each with 3-4 named criteria and the closing directive. -/
def academicEssayTemplate : PromptTemplate :=
  ⟨"You are a writing tutor specializing in academic essays.",
   "Evaluate thesis clarity, argument structure, evidence use, and style. End with 2-3 actionable suggestions plus 1-2 open-ended guiding questions."⟩

/-- Modelled from the spec: registry entry for research papers. -/
def researchPaperTemplate : PromptTemplate :=
  ⟨"You are a writing tutor specializing in research papers.",
   "Evaluate source integration, methodology description, and citation practice. End with 2-3 actionable suggestions plus 1-2 open-ended guiding questions."⟩

/-- Modelled from the spec: registry entry for theses and dissertations. -/
def thesisTemplate : PromptTemplate :=
  ⟨"You are a writing tutor specializing in theses and dissertations.",
   "Evaluate arguability, specificity, clarity, and scope. End with 2-3 actionable suggestions plus 1-2 open-ended guiding questions."⟩

/-- Modelled from the spec: registry entry for lab reports. -/
def labReportTemplate : PromptTemplate :=
  ⟨"You are a writing tutor specializing in lab reports.",
   "Evaluate structure, precision of observations, and analysis. End with 2-3 actionable suggestions plus 1-2 open-ended guiding questions."⟩

/-- Modelled from the spec: registry entry for reflection papers. -/
def reflectionPaperTemplate : PromptTemplate :=
  ⟨"You are a writing tutor specializing in reflection papers.",
   "Evaluate depth of reflection, concreteness of examples, and growth narrative. End with 2-3 actionable suggestions plus 1-2 open-ended guiding questions."⟩

/-- Modelled from the spec: the read-only registry mapping each
writing-type label of src/app.py lines 220-229 to its template. The
Academic Essay entry is the Academic Paper-equivalent designated
default. -/
def writingTemplates : List (String × PromptTemplate) :=
  [("Academic Essay", academicEssayTemplate),
   ("Research Paper", researchPaperTemplate),
   ("Thesis/Dissertation", thesisTemplate),
   ("Lab Report", labReportTemplate),
   ("Reflection Paper", reflectionPaperTemplate)]

/-- Modelled from the spec: registry lookup with fallback to the
designated default entry, never failing (spec section 4.2, a dict .get
with the Academic Paper-equivalent default). -/
def getTemplate (label : String) : PromptTemplate :=
  (writingTemplates.lookup label).getD academicEssayTemplate

example : (detect_citations "(Smith, 2020) and (Jones 45) see https://example.com").apa_count = 1 := by decide
example : (detect_citations "(Smith, 2020) and (Jones 45) see https://example.com").mla_count = 1 := by decide
example : (detect_citations "(Smith, 2020) and (Jones 45) see https://example.com").url_count = 1 := by decide
example : (detect_citations "(Smith, 2020) and (Jones 45) see https://example.com").total_citations = 2 := by decide
example : (detect_citations "(Smith, 2020) and (Jones 45) see https://example.com").has_recent_sources = true := by decide
example : (detect_citations "(Smith, 1999)").has_recent_sources = false := by decide
example : (detect_citations "").total_citations = 0 := by decide

/-- A list is a Boolean prefix of itself followed by anything. -/
theorem isPrefixOf_append_self (n b : List Char) : n.isPrefixOf (n ++ b) = true := by
  induction n with
  | nil => cases b <;> rfl
  | cons c cs ih => simp [List.isPrefixOf, ih]

/-- A needle occurs in any haystack that carries it as a contiguous run. -/
theorem containsSub_append_middle (n a b : List Char) :
    containsSub n (a ++ (n ++ b)) = true := by
  unfold containsSub
  rw [List.any_eq_true]
  refine ⟨a.length, List.mem_range.mpr ?_, ?_⟩
  · simp [List.length_append]
    omega
  · rw [List.drop_left]
    exact isPrefixOf_append_self n b

/-- C1: for every input text, the CitationReport returned by the citation
analyzer satisfies total_citations = apa_count + mla_count; url_count is
kept separate and never added into total_citations (concretely, a text
whose only citation-shaped token is a URL has url_count 1 and total 0). -/
theorem detect_citations_total_eq_apa_add_mla :
    (∀ text : String, (detect_citations text).total_citations =
      (detect_citations text).apa_count + (detect_citations text).mla_count) ∧
    (detect_citations "see https://example.com").url_count = 1 ∧
    (detect_citations "see https://example.com").total_citations = 0 :=
  ⟨fun _ => rfl, by decide, by decide⟩

/-- C2: whenever the Completion Service call of a dispatcher fails, for
any reason, the dispatcher returns its fixed non-empty fallback string to
its caller; both dispatchers are total functions, so no error propagates
past them. -/
theorem dispatcher_fallback_on_service_failure :
    (∀ (svc : CompletionRequest → Except String String) (text focus e : String),
       svc (socraticRequest text focus) = Except.error e →
       generate_socratic_questions svc text focus = socraticFallbackJson) ∧
    (∀ (svc : CompletionRequest → Except String String) (text : String)
       (citation_data : CitationReport) (e : String),
       svc (citationRequest text citation_data) = Except.error e →
       analyze_citations_with_ai svc text citation_data = citationFallback) ∧
    socraticFallbackJson ≠ "" ∧ citationFallback ≠ "" := by
  refine ⟨?_, ?_, by decide, by decide⟩
  · intro svc text focus e h
    unfold generate_socratic_questions
    rw [h]
  · intro svc text cd e h
    unfold analyze_citations_with_ai
    rw [h]

/-- Witness for C2 at a concrete failing service. -/
theorem dispatcher_fallback_on_service_failure_witness :
    generate_socratic_questions (fun _ => Except.error "network down")
      "My essay draft." "Argument Development" = socraticFallbackJson ∧
    analyze_citations_with_ai (fun _ => Except.error "quota exceeded")
      "My essay draft." (detect_citations "My essay draft.") = citationFallback :=
  ⟨dispatcher_fallback_on_service_failure.1 (fun _ => Except.error "network down")
      "My essay draft." "Argument Development" "network down" rfl,
   dispatcher_fallback_on_service_failure.2.1 (fun _ => Except.error "quota exceeded")
      "My essay draft." (detect_citations "My essay draft.") "quota exceeded" rfl⟩

/-- C4: every recognized writing-type label resolves to its own template,
and every unrecognized label resolves to the same template as the
designated default label, never an error. -/
theorem template_registry_lookup_with_default :
    getTemplate "Academic Essay" = academicEssayTemplate ∧
    getTemplate "Research Paper" = researchPaperTemplate ∧
    getTemplate "Thesis/Dissertation" = thesisTemplate ∧
    getTemplate "Lab Report" = labReportTemplate ∧
    getTemplate "Reflection Paper" = reflectionPaperTemplate ∧
    ∀ label : String, writingTemplates.lookup label = none →
      getTemplate label = getTemplate "Academic Essay" := by
  refine ⟨rfl, rfl, rfl, rfl, rfl, ?_⟩
  intro label h
  show (writingTemplates.lookup label).getD academicEssayTemplate = getTemplate "Academic Essay"
  rw [h]
  rfl

/-- Witness for C4 at a concrete unrecognized label. -/
theorem template_registry_lookup_with_default_witness :
    getTemplate "Poem" = getTemplate "Academic Essay" :=
  template_registry_lookup_with_default.2.2.2.2.2 "Poem" rfl

/-- C5 counterexample: for a draft with zero citations the user-role
message still carries the citation note stating the citation count, so
the note is not conditional on total_citations > 0. -/
theorem citation_note_always_present_counterexample :
    (detect_citations "hello world").total_citations = 0 ∧
    containsSub ("Total citations found: ".data)
      (citationUserMessage "hello world" (detect_citations "hello world")).data = true :=
  ⟨by decide, by decide⟩

/-- C5 amended: the user-role message constructed by the citation
dispatcher always contains the citation-context note stating the citation
count, for every draft and every CitationReport, regardless of whether
total_citations is positive. -/
theorem citation_note_unconditional :
    ∀ (text : String) (citation_data : CitationReport),
      (citationRequest text citation_data).messages =
        [⟨"system", citationSystemPrompt⟩,
         ⟨"user", citationUserMessage text citation_data⟩] ∧
      containsSub ("Total citations found: ".data)
        (citationUserMessage text citation_data).data = true := by
  intro text cd
  refine ⟨rfl, ?_⟩
  have hsplit : ("\n    Citation Analysis:\n    - Total citations found: " : String) =
      "\n    Citation Analysis:\n    - " ++ "Total citations found: " := by decide
  unfold citationUserMessage citation_context
  rw [hsplit]
  simp only [String.data_append, List.append_assoc]
  exact containsSub_append_middle _ _ _

/-- C6 counterexample: with the credential absent from the environment,
the analysis flow still consults the Completion Service (its outcome
changes the result), a failing call yields the ordinary fallback results
rather than a distinct configuration error, and the outcome is identical
to a runtime service failure with the credential present. -/
theorem missing_credential_not_detected_counterexample :
    apiKeyFromEnv (fun _ => none) = none ∧
    outcomeQuestions (runAnalysis (fun _ => none) (fun _ => Except.ok "OK")
      "Some draft text." "Argument Development") = some "OK" ∧
    outcomeQuestions (runAnalysis (fun _ => none) (fun _ => Except.error "missing key")
      "Some draft text." "Argument Development") = some socraticFallbackJson ∧
    socraticFallbackJson ≠ "OK" ∧
    runAnalysis (fun _ => none) (fun _ => Except.error "auth failure")
      "Some draft text." "Argument Development" =
      runAnalysis (fun _ => some "sk-test-credential") (fun _ => Except.error "network timeout")
        "Some draft text." "Argument Development" :=
  ⟨rfl, by decide, by decide, by decide, rfl⟩

/-- C6 amended: the credential is read from the environment but never
checked; the analysis result is independent of the environment, and a
missing credential surfaces only as a Completion Service call failure
answered by the generic fallback strings, exactly like any runtime
service error. -/
theorem missing_credential_generic_fallback :
    (∀ (env env' : String → Option String) (svc : CompletionRequest → Except String String)
       (user_input focus : String),
       runAnalysis env svc user_input focus = runAnalysis env' svc user_input focus) ∧
    (∀ (svc : CompletionRequest → Except String String) (user_input focus e₁ e₂ : String),
       pyStrip user_input ≠ "" →
       svc (socraticRequest user_input focus) = Except.error e₁ →
       svc (citationRequest user_input (detect_citations user_input)) = Except.error e₂ →
       runAnalysis (fun _ => none) svc user_input focus =
         AnalysisOutcome.results socraticFallbackJson citationFallback
           (detect_citations user_input)) := by
  constructor
  · intro env env' svc user_input focus
    rfl
  · intro svc user_input focus e₁ e₂ hne h1 h2
    simp [runAnalysis, if_neg hne, generate_socratic_questions, analyze_citations_with_ai, h1, h2]

/-- Witness for C6 amended at a concrete missing-credential run. -/
theorem missing_credential_generic_fallback_witness :
    runAnalysis (fun _ => none) (fun _ => Except.error "boom")
      "Draft text here." "Clarity & Organization" =
      AnalysisOutcome.results socraticFallbackJson citationFallback
        (detect_citations "Draft text here.") :=
  missing_credential_generic_fallback.2 (fun _ => Except.error "boom")
    "Draft text here." "Clarity & Organization" "boom" "boom" (by decide) rfl rfl

/-- C7: the recent-source flag is exactly the test that some APA match
contains the literal substring 202; MLA matches and URLs play no part in
it, and the draft (Smith, 1999) leaves it false. -/
theorem has_recent_sources_iff_apa_202 :
    (∀ text : String, (detect_citations text).has_recent_sources =
      (findall matchAPA text.data).any (fun citation => containsSub ("202".data) citation)) ∧
    (detect_citations "(Smith, 1999)").has_recent_sources = false :=
  ⟨fun _ => rfl, by decide⟩

/-- C8: the citation density is the citation count over the word count
with minimum denominator one, scaled by 1000, and the empty text yields
the all-zero report with density 0. -/
theorem citation_density_formula :
    (∀ text : String, (detect_citations text).citation_density =
      (((detect_citations text).apa_count + (detect_citations text).mla_count : ℕ) : ℚ) /
        ((max (countWords text.data) 1 : ℕ) : ℚ) * 1000) ∧
    (detect_citations "").apa_count = 0 ∧ (detect_citations "").mla_count = 0 ∧
    (detect_citations "").url_count = 0 ∧ (detect_citations "").has_recent_sources = false ∧
    (detect_citations "").total_citations = 0 ∧
    (detect_citations "").citation_density = 0 := by
  refine ⟨fun _ => rfl, by decide, by decide, by decide, by decide, by decide, ?_⟩
  have hd : (detect_citations "").citation_density = ((0 : ℕ) : ℚ) / ((1 : ℕ) : ℚ) * 1000 := rfl
  rw [hd]
  norm_num

/-- Option-valued map over a list on which every element succeeds yields
a result of the same length. -/
theorem mapOpt_length {α β : Type} (f : α → Option β) :
    ∀ l : List α, (∀ a ∈ l, (f a).isSome) →
      ∃ bs, mapOpt f l = some bs ∧ bs.length = l.length := by
  intro l
  induction l with
  | nil => exact fun _ => ⟨[], rfl, rfl⟩
  | cons a as ih =>
    intro h
    obtain ⟨bs, hbs, hlen⟩ := ih (fun x hx => h x (List.mem_cons_of_mem a hx))
    obtain ⟨b, hb⟩ := Option.isSome_iff_exists.mp (h a (List.mem_cons_self a as))
    exact ⟨b :: bs, by simp [mapOpt, hb, hbs], by simp [hlen]⟩

/-- C3: a well-formed structured payload with N question entries, each an
object carrying question and purpose, and a non-empty reflection-prompt
string, displays exactly N question entries plus exactly one reflection
prompt; an unparseable payload displays exactly the 3 fixed fallback
questions plus the 1 fixed fallback reflection prompt. Determinism is
inherent: displayResults is a function of the payload alone. -/
theorem socratic_display_round_trip :
    (∀ (kvs : List (String × Json)) (qs : List Json) (s : String),
       kvs.lookup "questions" = some (Json.arr qs) →
       kvs.lookup "reflection_prompt" = some (Json.str s) →
       s ≠ "" →
       (∀ q ∈ qs, (renderQuestionEntry q).isSome) →
       ∃ entries, displayResults (some (Json.obj kvs)) = some (entries, some (Json.str s)) ∧
         entries.length = qs.length) ∧
    (∃ entries, displayResults none = some (entries, some (Json.str fallbackReflectionPrompt)) ∧
       entries.length = 3) := by
  constructor
  · intro kvs qs s hq hr hs hok
    obtain ⟨entries, he, hlen⟩ := mapOpt_length renderQuestionEntry qs hok
    refine ⟨entries, ?_, hlen⟩
    have htr : truthy (Json.str s) = true := by
      simp only [truthy, bne_iff_ne, ne_eq]
      exact hs
    simp [displayResults, parseQuestionsData, hq, hr, displayStep, he, htr]
  · exact ⟨[(Json.str "What is the strongest part of your argument and why?",
             Json.str "Identifies areas of strength"),
            (Json.str "Where might readers need more explanation or evidence?",
             Json.str "Highlights gaps in support"),
            (Json.str "How does this piece serve your reader\x27s needs?",
             Json.str "Develops audience awareness")], rfl, rfl⟩

/-- Witness for C3 at a concrete two-question payload. -/
theorem socratic_display_round_trip_witness :
    ∃ entries,
      displayResults (some (Json.obj
        [("questions", Json.arr
           [Json.obj [("question", Json.str "Q1"), ("purpose", Json.str "P1")],
            Json.obj [("question", Json.str "Q2"), ("purpose", Json.str "P2")]]),
         ("reflection_prompt", Json.str "Consider your audience.")])) =
        some (entries, some (Json.str "Consider your audience.")) ∧
      entries.length = 2 :=
  socratic_display_round_trip.1
    [("questions", Json.arr
       [Json.obj [("question", Json.str "Q1"), ("purpose", Json.str "P1")],
        Json.obj [("question", Json.str "Q2"), ("purpose", Json.str "P2")]]),
     ("reflection_prompt", Json.str "Consider your audience.")]
    [Json.obj [("question", Json.str "Q1"), ("purpose", Json.str "P1")],
     Json.obj [("question", Json.str "Q2"), ("purpose", Json.str "P2")]]
    "Consider your audience." rfl rfl (by decide) (by decide)

/-- C10: a well-formed questions list with a reflection_prompt that is
absent or the empty string displays its question entries and zero
reflection prompts; the parse-failure fallback prompt, by contrast, is
truthy and so is always displayed. -/
theorem empty_reflection_not_displayed :
    (∀ (kvs : List (String × Json)) (qs : List Json),
       kvs.lookup "questions" = some (Json.arr qs) →
       (∀ q ∈ qs, (renderQuestionEntry q).isSome) →
       (kvs.lookup "reflection_prompt" = none ∨
        kvs.lookup "reflection_prompt" = some (Json.str "")) →
       ∃ entries, displayResults (some (Json.obj kvs)) = some (entries, none) ∧
         entries.length = qs.length) ∧
    truthy (Json.str fallbackReflectionPrompt) = true := by
  constructor
  · intro kvs qs hq hok hr
    obtain ⟨entries, he, hlen⟩ := mapOpt_length renderQuestionEntry qs hok
    refine ⟨entries, ?_, hlen⟩
    rcases hr with hr | hr <;>
      simp [displayResults, parseQuestionsData, hq, hr, displayStep, he, truthy]
  · decide

/-- Witness for C10 at a concrete payload without a reflection prompt. -/
theorem empty_reflection_not_displayed_witness :
    ∃ entries,
      displayResults (some (Json.obj [("questions", Json.arr [])])) = some (entries, none) ∧
      entries.length = 0 :=
  empty_reflection_not_displayed.1 [("questions", Json.arr [])] [] rfl (by decide) (Or.inl rfl)

/-- Every token returned by the findall scanner was produced by the
anchored matcher at some position. -/
theorem mem_scanAll {m : List Char → Option (List Char × List Char)} :
    ∀ (fuel : Nat) (l tok : List Char), tok ∈ scanAll m fuel l →
      ∃ l₀ r, m l₀ = some (tok, r) := by
  intro fuel
  induction fuel with
  | zero =>
    intro l tok h
    simp [scanAll] at h
  | succ n ih =>
    intro l tok h
    cases l with
    | nil => simp [scanAll] at h
    | cons c rest =>
      cases hm : m (c :: rest) with
      | none =>
        rw [scanAll, hm] at h
        exact ih rest tok h
      | some p =>
        obtain ⟨t0, r0⟩ := p
        rw [scanAll, hm] at h
        cases h with
        | head => exact ⟨c :: rest, r0, hm⟩
        | tail _ htail => exact ih r0 tok htail

/-- A successful APA continuation match starts with the comma. -/
theorem matchAPAloop_head {fuel : Nat} {l tok r : List Char}
    (h : matchAPAloop fuel l = some (tok, r)) : ∃ u, tok = ',' :: u := by
  cases fuel with
  | zero => simp [matchAPAloop] at h
  | succ n =>
    cases l with
    | nil => simp [matchAPAloop] at h
    | cons c rest =>
      simp only [matchAPAloop] at h
      split at h
      · split at h
        · exact absurd h (by simp)
        · split at h
          · split at h
            · rw [Option.some.injEq, Prod.mk.injEq] at h
              exact ⟨_, h.1.symm⟩
            · exact absurd h (by simp)
          · split at h
            · split at h
              · rw [Option.some.injEq, Prod.mk.injEq] at h
                exact ⟨_, h.1.symm⟩
              · exact absurd h (by simp)
            · exact absurd h (by simp)
      · exact absurd h (by simp)

/-- Shape of an APA match: an opening parenthesis, a maximal run of
letters, then a comma. -/
theorem matchAPA_shape {l tok r : List Char} (h : matchAPA l = some (tok, r)) :
    ∃ L u, tok = '(' :: (L ++ ',' :: u) ∧ (∀ a ∈ L, isAlphaChar a) := by
  cases l with
  | nil => simp [matchAPA] at h
  | cons c rest =>
    simp only [matchAPA] at h
    split at h
    · split at h
      · exact absurd h (by simp)
      · split at h
        · rename_i heq
          obtain ⟨u, hu⟩ := matchAPAloop_head heq
          rw [Option.some.injEq, Prod.mk.injEq] at h
          refine ⟨rest.takeWhile isAlphaChar, u, ?_, fun a ha => List.mem_takeWhile_imp ha⟩
          rw [← h.1, hu]
        · exact absurd h (by simp)
    · exact absurd h (by simp)

/-- Shape of an MLA match: an opening parenthesis, a maximal run of
letters, then a whitespace character. -/
theorem matchMLA_shape {l tok r : List Char} (h : matchMLA l = some (tok, r)) :
    ∃ L w u, tok = '(' :: (L ++ w :: u) ∧ (∀ a ∈ L, isAlphaChar a) ∧ pySpace w := by
  cases l with
  | nil => simp [matchMLA] at h
  | cons c rest =>
    simp only [matchMLA] at h
    split at h
    · split at h
      · exact absurd h (by simp)
      · split at h
        · exact absurd h (by simp)
        · split at h
          · exact absurd h (by simp)
          · split at h
            · rename_i hws _ _ r0 heq3
              rw [Option.some.injEq, Prod.mk.injEq] at h
              have hne : (rest.dropWhile isAlphaChar).takeWhile pySpace ≠ [] := by
                intro habs
                rw [habs] at hws
                exact hws rfl
              obtain ⟨w, ws', hw⟩ := List.exists_cons_of_ne_nil hne
              have hwmem : pySpace w := by
                apply List.mem_takeWhile_imp (l := rest.dropWhile isAlphaChar) (p := pySpace)
                rw [hw]
                exact List.mem_cons_self w ws'
              refine ⟨rest.takeWhile isAlphaChar, w,
                ws' ++ ((rest.dropWhile isAlphaChar).dropWhile pySpace).takeWhile isDigitChar ++ [')'],
                ?_, fun a ha => List.mem_takeWhile_imp ha, hwmem⟩
              rw [← h.1, hw]
              simp [List.cons_append, List.append_assoc]
            · exact absurd h (by simp)
    · exact absurd h (by simp)

/-- Two decompositions of the same list as an all-alpha run followed by a
non-alpha stopper agree on the stopper. -/
theorem alphaRun_stop_unique :
    ∀ (L₁ L₂ : List Char) (c₁ c₂ : Char) (u₁ u₂ : List Char),
      (∀ a ∈ L₁, isAlphaChar a) → (∀ a ∈ L₂, isAlphaChar a) →
      isAlphaChar c₁ = false → isAlphaChar c₂ = false →
      L₁ ++ c₁ :: u₁ = L₂ ++ c₂ :: u₂ → c₁ = c₂ := by
  intro L₁
  induction L₁ with
  | nil =>
    intro L₂ c₁ c₂ u₁ u₂ _ h2 hc1 _ heq
    cases L₂ with
    | nil =>
      rw [List.nil_append, List.nil_append] at heq
      injection heq
    | cons b bs =>
      rw [List.nil_append, List.cons_append] at heq
      injection heq with heads _
      rw [heads] at hc1
      rw [h2 b (List.mem_cons_self b bs)] at hc1
      exact absurd hc1 (by simp)
  | cons a as ih =>
    intro L₂ c₁ c₂ u₁ u₂ h1 h2 hc1 hc2 heq
    cases L₂ with
    | nil =>
      rw [List.nil_append, List.cons_append] at heq
      injection heq with heads _
      rw [← heads] at hc2
      rw [h1 a (List.mem_cons_self a as)] at hc2
      exact absurd hc2 (by simp)
    | cons b bs =>
      rw [List.cons_append, List.cons_append] at heq
      injection heq with _ tails
      exact ih bs c₁ c₂ u₁ u₂ (fun x hx => h1 x (List.mem_cons_of_mem a hx))
        (fun x hx => h2 x (List.mem_cons_of_mem b hx)) hc1 hc2 tails

/-- A whitespace character is never an alphabetic character. -/
theorem pySpace_not_alphaChar {c : Char} (h : pySpace c = true) :
    isAlphaChar c = false := by
  apply Bool.eq_false_iff.mpr
  intro habs
  simp only [pySpace, Bool.or_eq_true, Bool.and_eq_true, decide_eq_true_eq] at h
  simp only [isAlphaChar, Bool.or_eq_true, Bool.and_eq_true, decide_eq_true_eq] at habs
  omega

/-- C9: no token is matched by both citation patterns: an APA match
carries a comma right after its leading letter run where an MLA match
carries whitespace, so the matched-substring sets are disjoint and the
double-counting case cannot arise. -/
theorem apa_mla_matches_disjoint :
    ∀ (text : String) (c c' : List Char),
      c ∈ findall matchAPA text.data → c' ∈ findall matchMLA text.data → c ≠ c' := by
  intro text c c' hc hc' heq
  obtain ⟨l₀, r₀, h₀⟩ := mem_scanAll _ _ _ hc
  obtain ⟨l₁, r₁, h₁⟩ := mem_scanAll _ _ _ hc'
  obtain ⟨L, u, htok, hL⟩ := matchAPA_shape h₀
  obtain ⟨L', w, u', htok', hL', hw⟩ := matchMLA_shape h₁
  subst heq
  rw [htok] at htok'
  have htails : L ++ ',' :: u = L' ++ w :: u' := by
    injection htok'
  have hcw : ',' = w :=
    alphaRun_stop_unique L L' ',' w u u' hL hL' (by decide)
      (pySpace_not_alphaChar hw) htails
  have hsp : pySpace ',' = true := hcw ▸ hw
  exact absurd hsp (by decide)

/-- Witness for C9 at a concrete text containing one APA and one MLA
citation. -/
theorem apa_mla_matches_disjoint_witness :
    "(Smith, 2020)".data ≠ "(Jones 45)".data :=
  apa_mla_matches_disjoint "(Smith, 2020) (Jones 45)" "(Smith, 2020)".data "(Jones 45)".data
    (by decide) (by decide)

end AIWritingCoach
